import Mathlib

/-!
# Verification of `rt.py` (resolver-testbed control script)

A shallow embedding of the control-plane script `rt.py`.  External effects
(local subprocess invocations, SSH connections, remote commands, log-file
appends, printing) are recorded in a trace, and the results the external
world would give back are supplied by an `Env` record of simulated outcomes.
Process termination via `die`/`exit()` is an `Outcome.exited` value carrying
the process exit status (`exit()` with no argument exits with status 0).

Python string primitives used by the script (`strip`, `rstrip`,
`split("\n")`, `find`, slicing, substring `in`) are modelled on `List Char`.
-/

set_option autoImplicit false

namespace RT

/-! ## Python string primitives -/

/-- Whitespace characters stripped by Python `str.strip()` (ASCII set). -/
def isPySpace (c : Char) : Bool :=
  c = ' ' || c = '\t' || c = '\n' || c = '\r' || c = '\x0b' || c = '\x0c'

/-- Python `str.lstrip()` on a character list. -/
def pyLstripL (s : List Char) : List Char := s.dropWhile isPySpace

/-- Python `str.rstrip()` on a character list. -/
def pyRstripL (s : List Char) : List Char := (s.reverse.dropWhile isPySpace).reverse

/-- Python `str.strip()` on a character list. -/
def pyStripL (s : List Char) : List Char := pyRstripL (pyLstripL s)

/-- Python `str.strip()`. -/
def pyStrip (s : String) : String := ⟨pyStripL s.data⟩

/-- Python `str.rstrip()`. -/
def pyRstrip (s : String) : String := ⟨pyRstripL s.data⟩

/-- Python `s.split("\n")`: split at every newline, keeping empty segments;
the empty string yields `[""]`. -/
def splitNl : List Char → List (List Char)
  | [] => [[]]
  | c :: rest =>
    if c = '\n' then [] :: splitNl rest
    else
      match splitNl rest with
      | [] => [[c]]
      | seg :: segs => (c :: seg) :: segs

/-- Auxiliary for Python `str.find`: lowest index `≥ i` (counted by the
accumulator) at which `c` occurs. -/
def pyFindAux (c : Char) : List Char → Nat → Option Nat
  | [], _ => none
  | x :: xs, i => if x = c then some i else pyFindAux c xs (i + 1)

/-- Python `s.find(c, start)`: lowest index `≥ start` where `c` occurs,
`-1` if there is none. -/
def pyFind (s : List Char) (c : Char) (start : Nat) : Int :=
  match pyFindAux c (s.drop start) start with
  | some i => (i : Int)
  | none => -1

/-- The effective (clamped, non-negative) stop index of a Python slice
`s[_ : stop]`, where a negative `stop` counts from the end. -/
def pySliceStop (s : List Char) (stop : Int) : Nat :=
  if stop < 0 then s.length - (-stop).toNat else min stop.toNat s.length

/-- Python slice `s[a : stop]` (with `a ≥ 0`). -/
def pySlice (s : List Char) (a : Nat) (stop : Int) : List Char :=
  (s.take (pySliceStop s stop)).drop a

/-- Does `needle` occur as a leading segment of `hay`? -/
def listPrefixEq : List Char → List Char → Bool
  | [], _ => true
  | _ :: _, [] => false
  | a :: as, b :: bs => (a = b) && listPrefixEq as bs

/-- Does `needle` occur as a contiguous segment of `hay`? -/
def listContains (needle : List Char) : List Char → Bool
  | [] => listPrefixEq needle []
  | b :: bs => listPrefixEq needle (b :: bs) || listContains needle bs

/-- Python substring test `needle in hay`. -/
def pyIn (needle hay : String) : Bool :=
  listContains needle.data hay.data

/-! ## Effects, outcomes and the trace monad -/

/-- One observable effect of a run of the script. -/
inductive Eff : Type
  /-- `print(...)` to standard output. -/
  | print (s : String)
  /-- one line appended to the log file by `LOG.info`. -/
  | logLine (s : String)
  /-- a local subprocess invocation (`subprocess.Popen(cmd, shell=True)`). -/
  | subproc (cmd : String)
  /-- an attempt to open an SSH connection (`fabric.Connection(...).open()`). -/
  | sshOpen (addr : String)
  /-- a remote command run over an open SSH connection (`fabconn.run(cmd)`). -/
  | sshRun (addr : String) (cmd : String)
  deriving DecidableEq, Repr

/-- How a piece of the script finished: returning a value, or terminating
the whole process with the given exit status. -/
inductive Outcome (α : Type) : Type
  | ok (a : α)
  | exited (code : Nat)
  deriving DecidableEq, Repr

/-- A computation of the script: the trace of effects it performs, and its
outcome (a value, or process termination). -/
structure M (α : Type) : Type where
  effs : List Eff
  out : Outcome α
  deriving DecidableEq, Repr

def M.pure {α : Type} (a : α) : M α := ⟨[], .ok a⟩

def M.bind {α β : Type} (x : M α) (f : α → M β) : M β :=
  match x.out with
  | .ok a => ⟨x.effs ++ (f a).effs, (f a).out⟩
  | .exited c => ⟨x.effs, .exited c⟩

/-- Record a single effect. -/
def M.emit (e : Eff) : M Unit := ⟨[e], .ok ()⟩

instance : Monad M where
  pure := M.pure
  bind := M.bind

@[simp] theorem M_bind_def {α β : Type} (x : M α) (f : α → M β) :
    x >>= f = M.bind x f := rfl

@[simp] theorem M_pure_def {α : Type} (a : α) :
    (Pure.pure a : M α) = M.pure a := rfl

@[simp] theorem M_bind_mk_ok {α β : Type} (es : List Eff) (a : α) (f : α → M β) :
    M.bind ⟨es, .ok a⟩ f = ⟨es ++ (f a).effs, (f a).out⟩ := rfl

@[simp] theorem M_bind_mk_exited {α β : Type} (es : List Eff) (c : Nat) (f : α → M β) :
    M.bind ⟨es, .exited c⟩ f = ⟨es, .exited c⟩ := rfl

@[simp] theorem M_bind_pure_left {α β : Type} (a : α) (f : α → M β) :
    M.bind (M.pure a) f = f a := by
  simp [M.pure, M.bind]

@[simp] theorem M_bind_emit {β : Type} (e : Eff) (f : Unit → M β) :
    M.bind (M.emit e) f = ⟨e :: (f ()).effs, (f ()).out⟩ := by
  simp [M.emit, M.bind]

/-- The result object of a `fabric` remote command (`fabconn.run(...)`):
whether it failed, its captured standard output and standard error. -/
structure RunResult : Type where
  failed : Bool
  stdout : String
  stderr : String
  deriving DecidableEq, Repr

/-- Simulated outcomes of all external interactions, plus the strings
`time.strftime` returns during the run (taken to be constant over the
short run). -/
structure Env : Type where
  /-- `time.strftime("%H-%M-%S")`. -/
  now : String
  /-- `time.strftime("%Y-%m-%d")`. -/
  today : String
  /-- exit status of `VBoxManage --version`. -/
  versionExit : Nat
  /-- exit status of `VBoxManage showvminfo <name>`, per VM name. -/
  showVmInfoExit : String → Nat
  /-- exit status of `VBoxManage list runningvms`. -/
  listRunningExit : Nat
  /-- decoded standard output of `VBoxManage list runningvms`. -/
  listRunningOutput : String
  /-- whether opening an SSH connection to the given address succeeds. -/
  sshOpenOk : String → Bool
  /-- result of running `hostname` over SSH at the given address. -/
  hostnameResult : String → RunResult
  /-- result of running a given command over SSH at a given address. -/
  mainCmdResult : String → String → RunResult

/-! ## Program constants (from `rt.py`) -/

/-- The static VM table `VM_INFO`: VM name to an attribute dictionary
holding the control address. -/
def VM_INFO : List (String × List (String × String)) :=
  [("gateway-vm", [("control_addr", "192.168.56.2")]),
   ("servers-vm", [("control_addr", "192.168.56.3")]),
   ("resolvers-vm", [("control_addr", "192.168.56.4")])]

/-- The fixed command set `CLI_COMMANDS`. -/
def CLI_COMMANDS : List String := ["help", "check_vms"]

/-- `HELP_TEXT` (after the `.strip()` applied at definition time). -/
def HELP_TEXT : String :=
  "Available commands for rt.py are:\nhelp                 Show this text\ncheck_vms            Run simple checks on the VMs"

/-- CPython: `exit(arg)` raises `SystemExit`; uncaught, the process exit
status is `arg` when it is an integer and `0` when it is absent (`none`). -/
def pythonExitStatus : Option Nat → Nat
  | none => 0
  | some n => n

/-! ## The script's functions -/

/-- `log(in_str)`: skip falsy (empty) messages; otherwise append
`"{HH-MM-SS}: {in_str}"` to the log file and print it. -/
def log (env : Env) (in_str : String) : M Unit :=
  if in_str = "" then M.pure ()
  else
    let out := env.now ++ ": " ++ in_str
    M.bind (M.emit (.logLine out)) fun _ => M.emit (.print out)

/-- `die(in_str)`: log `in_str + " Exiting."`, then `exit()` (no argument,
so the process exit status is `pythonExitStatus none = 0`). -/
def die {α : Type} (env : Env) (in_str : String) : M α :=
  let err_str := in_str ++ " Exiting."
  ⟨(log env err_str).effs, .exited (pythonExitStatus none)⟩

/-- `show_help()`: print `HELP_TEXT`. -/
def show_help : M Unit := M.emit (.print HELP_TEXT)

/-- `this_line[1:this_line.find('"', 2)]`: the name-extraction applied to
each line of `VBoxManage list runningvms` output. -/
def extractQuotedL (l : List Char) : List Char :=
  pySlice l 1 (pyFind l '"' 2)

/-- `extractQuotedL` on `String`s. -/
def extractQuoted (line : String) : String := ⟨extractQuotedL line.data⟩

/-- Lines 99–102 of `rt.py`: decode, `strip()`, `split("\n")`, then extract
the quoted name from each line. -/
def running_vms_of (output : String) : List String :=
  (splitNl (pyStripL output.data)).map (fun l => (⟨extractQuotedL l⟩ : String))

/-- `is_vm_running(vm_name)`: run `VBoxManage list runningvms`; die if the
subprocess fails; die if `vm_name` is not among the parsed running names. -/
def is_vm_running (env : Env) (vm_name : String) : M Unit := do
  M.emit (.subproc "VBoxManage list runningvms")
  if env.listRunningExit > 0 then
    die env "VBoxManage runningvms failed to run."
  else
    let running_vms := running_vms_of env.listRunningOutput
    if vm_name ∈ running_vms then M.pure ()
    else
      die env (vm_name ++ " is not in the list of running VMs: '"
        ++ String.intercalate " " running_vms ++ "'.")

/-- `cmd_to_vm(cmd_to_run, vm_name)`.  `rt_config_vm_info` is the global
`rt_config["vm_info"]` set in `__main__` (a key-by-key copy of `VM_INFO`).
The membership guard reads the constant `VM_INFO`; the address is read from
`rt_config["vm_info"]` (a `KeyError` there — impossible in the real flow —
would terminate the process with status 1). -/
def cmd_to_vm (env : Env) (rt_config_vm_info : List (String × List (String × String)))
    (cmd_to_run vm_name : String) : M String := do
  if (VM_INFO.lookup vm_name).isNone then
    die env ("Attempt to run on " ++ vm_name ++ ", which is not a valid VM")
  else do
    is_vm_running env vm_name
    match rt_config_vm_info.lookup vm_name with
    | none => (⟨[], .exited 1⟩ : M String)
    | some vm_entry =>
      match vm_entry.lookup "control_addr" with
      | none => die env ("There was no address for " ++ vm_name)
      | some this_control_address =>
        if this_control_address = "" then
          die env ("There was no address for " ++ vm_name)
        else do
          M.emit (.sshOpen this_control_address)
          if env.sshOpenOk this_control_address = false then
            die env ("Could not open an SSH connection to " ++ vm_name ++ ".")
          else do
            M.emit (.sshRun this_control_address "hostname")
            let ret_hostname := env.hostnameResult this_control_address
            if ret_hostname.failed then
              die env ("Could not run hostname on " ++ vm_name)
            else
              let ret_text := ret_hostname.stdout
              if pyRstrip ret_text ≠ vm_name then
                die env ("The host at " ++ this_control_address ++ " is not "
                  ++ vm_name ++ ": '" ++ ret_text ++ "'")
              else do
                M.emit (.sshRun this_control_address cmd_to_run)
                let ret_main_cmd := env.mainCmdResult this_control_address cmd_to_run
                if ret_main_cmd.failed then
                  M.pure ("Error: " ++ pyStrip ret_main_cmd.stderr)
                else
                  M.pure (pyStrip ret_main_cmd.stdout)

/-- The `for this_vm_name in VM_INFO` inventory loop of
`startup_and_config_general`. -/
def check_vm_inventory (env : Env) :
    List (String × List (String × String)) → M Unit
  | [] => M.pure ()
  | (this_vm_name, _) :: rest => do
    M.emit (.subproc ("VBoxManage showvminfo " ++ this_vm_name
      ++ " >/dev/null 2>/dev/null"))
    if env.showVmInfoExit this_vm_name > 0 then
      die env ("Could not find '" ++ this_vm_name ++ "' in the VirtualBox inventory.")
    else check_vm_inventory env rest

/-- `startup_and_config_general()`: invocation-path check, `VBoxManage
--version` check, per-VM inventory checks, then build the configuration
(`this_local_config["vm_info"]`, copied key by key from `VM_INFO`). -/
def startup_and_config_general (env : Env) (argv0 : String) :
    M (List (String × List (String × String))) := do
  if argv0 ≠ "./rt.py" then
    die env "This program must be run as ./rt.py so that all the additional files are found."
  else do
    M.emit (.subproc "VBoxManage --version >/dev/null 2>/dev/null")
    if env.versionExit > 0 then
      die env "Could not run VBoxManage during sanity check."
    else do
      check_vm_inventory env VM_INFO
      M.pure (VM_INFO.foldl (fun acc kv => acc ++ [kv]) [])

/-- The `for this_vm in rt_config["vm_info"]` loop body sequence of
`sanity_check_vms`. -/
def sanity_check_loop (env : Env)
    (rtcfg : List (String × List (String × String))) : List String → M Unit
  | [] => M.pure ()
  | this_vm :: rest => do
    log env ("Starting sanity check on " ++ this_vm)
    is_vm_running env this_vm
    let this_ret ← cmd_to_vm env rtcfg "ls ~/Target" this_vm
    if pyIn "No such file or directory" this_ret then do
      let _ ← cmd_to_vm env rtcfg "mkdir ~/Target" this_vm
      log env ("Created ~/Target on " ++ this_vm)
    else M.pure ()
    let this_ret2 ← cmd_to_vm env rtcfg "ls ~/Source" this_vm
    if pyIn "No such file or directory" this_ret2 then do
      let _ ← cmd_to_vm env rtcfg "mkdir ~/Source" this_vm
      log env ("Created ~/Source on " ++ this_vm)
    else M.pure ()
    sanity_check_loop env rtcfg rest

/-- `sanity_check_vms()`: run the per-VM loop over the configured VM names
in table order, then `return True`. -/
def sanity_check_vms (env : Env)
    (rtcfg : List (String × List (String × String))) : M Bool := do
  sanity_check_loop env rtcfg (rtcfg.map Prod.fst)
  M.pure true

/-- The `__main__` block: start-of-run log line, argument-count guard,
startup validation, command logging, dispatch, end-of-run log line, and the
final `exit()`. -/
def mainProg (env : Env) (argv : List String) : M Unit := do
  log env ("## Starting run on date " ++ env.today)
  if argv.length < 2 then do
    show_help
    die env "There were no arguments on the command line."
  else do
    let rt_config_vm_info ← startup_and_config_general env (argv.getD 0 "")
    let cmd := argv.getD 1 ""
    let cmd_args := argv.drop 2
    log env ("Command was " ++ cmd ++ " " ++ String.intercalate " " cmd_args)
    if cmd ∉ CLI_COMMANDS then do
      show_help
      die env (cmd ++ " is not valid command.")
    else do
      if cmd = "help" then show_help
      else if cmd = "check_vms" then do
        let ok ← sanity_check_vms env rt_config_vm_info
        if ok then log env "VMs are running as expected" else M.pure ()
      else M.pure ()
      log env "## Finished run"
      (⟨[], .exited (pythonExitStatus none)⟩ : M Unit)

/-! ## Derived notions used in the statements -/

/-- The string `cmd_to_vm` hands back once the identity check has passed:
the error-marked stripped stderr on failure, the stripped stdout on
success. -/
def cmdRet (env : Env) (addr c : String) : String :=
  if (env.mainCmdResult addr c).failed then
    "Error: " ++ pyStrip (env.mainCmdResult addr c).stderr
  else pyStrip (env.mainCmdResult addr c).stdout

/-- Effects that touch the outside world over the network or a local
hypervisor subprocess (as opposed to printing and logging). -/
def isNetworkEff : Eff → Bool
  | .subproc _ => true
  | .sshOpen _ => true
  | .sshRun _ _ => true
  | _ => false

/-- Remote command executions. -/
def isSshRunEff : Eff → Bool
  | .sshRun _ _ => true
  | _ => false

/-- Log-file appends. -/
def isLogLineEff : Eff → Bool
  | .logLine _ => true
  | _ => false

/-- Effects belonging to the VM checks (`is_vm_running`/`cmd_to_vm`): the
running-VM query and all SSH activity. -/
def isVmCheckEff : Eff → Bool
  | .subproc c => c = "VBoxManage list runningvms"
  | .sshOpen _ => true
  | .sshRun _ _ => true
  | _ => false

/-- A VM for which every external interaction `cmd_to_vm` performs before
the caller's command succeeds: it is configured with control address
`addr`, listed as running, reachable over SSH, and reports the right
hostname. -/
def goodVm (env : Env) (vm addr : String) : Prop :=
  VM_INFO.lookup vm = some [("control_addr", addr)] ∧ addr ≠ "" ∧
  vm ∈ running_vms_of env.listRunningOutput ∧ env.sshOpenOk addr = true ∧
  (env.hostnameResult addr).failed = false ∧
  pyRstrip (env.hostnameResult addr).stdout = vm

/-- A concrete simulated environment: all three VMs running and reachable,
`ls ~/Target` failing with a missing-directory error, everything else
succeeding. -/
def demoEnv : Env where
  now := "12-00-00"
  today := "2026-10-12"
  versionExit := 0
  showVmInfoExit := fun _ => 0
  listRunningExit := 0
  listRunningOutput :=
    "\"gateway-vm\" {11111111-2222-3333-4444-555555555555}\n\"servers-vm\" {aaaa}\n\"resolvers-vm\" {bbbb}\n"
  sshOpenOk := fun _ => true
  hostnameResult := fun addr =>
    if addr = "192.168.56.2" then ⟨false, "gateway-vm\n", ""⟩
    else if addr = "192.168.56.3" then ⟨false, "servers-vm\n", ""⟩
    else ⟨false, "resolvers-vm\n", ""⟩
  mainCmdResult := fun _ c =>
    if c = "ls ~/Target" then
      ⟨true, "", "ls: cannot access Target: No such file or directory\n"⟩
    else ⟨false, "ok\n", ""⟩

/-! ## Helper lemmas -/

theorem string_eq_empty_of_data {t : String} (h : t.data = []) : t = "" := by
  cases t with
  | mk d => cases h; rfl

theorem append_right_ne_empty (s t : String) (h : t ≠ "") : s ++ t ≠ "" := by
  intro hc
  apply h
  have hd := congrArg String.data hc
  simp only [String.data_append] at hd
  exact string_eq_empty_of_data (List.append_eq_nil.mp hd).2

theorem append_left_ne_empty (s t : String) (h : s ≠ "") : s ++ t ≠ "" := by
  intro hc
  apply h
  have hd := congrArg String.data hc
  simp only [String.data_append] at hd
  exact string_eq_empty_of_data (List.append_eq_nil.mp hd).1

/-- `log` on a non-empty message: one log-file line and one print. -/
theorem log_eq_of_ne (env : Env) (msg : String) (h : msg ≠ "") :
    log env msg = ⟨[.logLine (env.now ++ ": " ++ msg),
                    .print (env.now ++ ": " ++ msg)], .ok ()⟩ := by
  rw [log, if_neg h]
  rfl

/-- `die` always logs `in_str + " Exiting."` and exits with status 0. -/
theorem die_eq {α : Type} (env : Env) (s : String) :
    (die env s : M α) =
      ⟨[.logLine (env.now ++ ": " ++ (s ++ " Exiting.")),
        .print (env.now ++ ": " ++ (s ++ " Exiting."))], .exited 0⟩ := by
  rw [die, log_eq_of_ne env _ (append_right_ne_empty s " Exiting." (by decide))]
  rfl

/-- `is_vm_running` when the listing subprocess succeeds and the name is
among the parsed running VMs: one subprocess effect, normal return. -/
theorem is_vm_running_success (env : Env) (vm : String)
    (hlr : env.listRunningExit = 0)
    (hrun : vm ∈ running_vms_of env.listRunningOutput) :
    is_vm_running env vm = ⟨[.subproc "VBoxManage list runningvms"], .ok ()⟩ := by
  rw [is_vm_running]
  simp [hlr, hrun, M.emit, M.pure, M.bind]

/-- The whole success path of `cmd_to_vm` for a `goodVm`: the running-VM
query, the SSH open, the identity check, then the caller's command, whose
result is returned as `cmdRet`. -/
theorem cmd_to_vm_success (env : Env) (c vm addr : String)
    (hg : goodVm env vm addr) (hlr : env.listRunningExit = 0) :
    cmd_to_vm env VM_INFO c vm =
      ⟨[.subproc "VBoxManage list runningvms", .sshOpen addr,
        .sshRun addr "hostname", .sshRun addr c], .ok (cmdRet env addr c)⟩ := by
  obtain ⟨hlook, hne, hrun, hssh, hhf, hhn⟩ := hg
  rw [cmd_to_vm, hlook, is_vm_running_success env vm hlr hrun]
  simp [hne, hssh, hhf, hhn, M.emit, M.bind, M.pure, cmdRet, List.lookup, apply_ite]
  cases hf : (env.mainCmdResult addr c).failed <;> simp [hf]

/-! ## Claims -/

/-- **C1.** On a configured VM that is running, reachable and passes the
identity check: when the remote command fails, `cmd_to_vm` returns the
error marker `"Error: "` followed by the stripped stderr text and does not
terminate the process; when it succeeds, `cmd_to_vm` returns the stripped
stdout text exactly (no error marker is added). -/
theorem C1_cmd_to_vm_error_marker (env : Env) (cmd_to_run vm addr : String)
    (hg : goodVm env vm addr) (hlr : env.listRunningExit = 0) :
    ((env.mainCmdResult addr cmd_to_run).failed = true →
      (cmd_to_vm env VM_INFO cmd_to_run vm).out =
        .ok ("Error: " ++ pyStrip (env.mainCmdResult addr cmd_to_run).stderr)) ∧
    ((env.mainCmdResult addr cmd_to_run).failed = false →
      (cmd_to_vm env VM_INFO cmd_to_run vm).out =
        .ok (pyStrip (env.mainCmdResult addr cmd_to_run).stdout)) := by
  rw [cmd_to_vm_success env cmd_to_run vm addr hg hlr]
  constructor <;> intro hf <;> simp [cmdRet, hf]

theorem C1_witness :
    ((demoEnv.mainCmdResult "192.168.56.2" "ls ~/Target").failed = true →
      (cmd_to_vm demoEnv VM_INFO "ls ~/Target" "gateway-vm").out =
        .ok ("Error: " ++ pyStrip (demoEnv.mainCmdResult "192.168.56.2" "ls ~/Target").stderr)) ∧
    ((demoEnv.mainCmdResult "192.168.56.2" "ls ~/Target").failed = false →
      (cmd_to_vm demoEnv VM_INFO "ls ~/Target" "gateway-vm").out =
        .ok (pyStrip (demoEnv.mainCmdResult "192.168.56.2" "ls ~/Target").stdout)) :=
  C1_cmd_to_vm_error_marker demoEnv "ls ~/Target" "gateway-vm" "192.168.56.2"
    ⟨by decide, by decide, by decide, by decide, by decide, by decide⟩ rfl

/-- **C2.** For every command and every `vm_name` not in the configured VM
table, `cmd_to_vm` terminates the process (exit status 0, via `die`)
without performing any network action: no subprocess, no SSH open, no
remote command. -/
theorem C2_cmd_to_vm_invalid_vm (env : Env)
    (rtcfg : List (String × List (String × String))) (cmd_to_run vm : String)
    (h : VM_INFO.lookup vm = none) :
    (cmd_to_vm env rtcfg cmd_to_run vm).out = .exited 0 ∧
    ∀ e ∈ (cmd_to_vm env rtcfg cmd_to_run vm).effs, isNetworkEff e = false := by
  rw [cmd_to_vm, h]
  simp only [Option.isNone_none, if_true]
  rw [die_eq]
  constructor
  · rfl
  · intro e he
    simp only [List.mem_cons, List.not_mem_nil, or_false] at he
    rcases he with rfl | rfl <;> rfl

theorem C2_witness :
    (cmd_to_vm demoEnv VM_INFO "echo hi" "bogus-vm").out = .exited 0 ∧
    ∀ e ∈ (cmd_to_vm demoEnv VM_INFO "echo hi" "bogus-vm").effs,
      isNetworkEff e = false :=
  C2_cmd_to_vm_invalid_vm demoEnv VM_INFO "echo hi" "bogus-vm" (by decide)

/-- **C3.** On a configured, running, reachable VM: if the `hostname`
identity check errors or returns a name that (after `rstrip`) differs from
`vm_name`, then `cmd_to_vm` terminates the process, and the only remote
command ever run over the session is the identity check itself — the
caller's command is never run. -/
theorem C3_identity_check_guards (env : Env) (cmd_to_run vm addr : String)
    (hlook : VM_INFO.lookup vm = some [("control_addr", addr)]) (hne : addr ≠ "")
    (hlr : env.listRunningExit = 0)
    (hrun : vm ∈ running_vms_of env.listRunningOutput)
    (hssh : env.sshOpenOk addr = true)
    (hbad : (env.hostnameResult addr).failed = true ∨
      pyRstrip (env.hostnameResult addr).stdout ≠ vm) :
    (cmd_to_vm env VM_INFO cmd_to_run vm).out = .exited 0 ∧
    (cmd_to_vm env VM_INFO cmd_to_run vm).effs.filter isSshRunEff =
      [Eff.sshRun addr "hostname"] := by
  rw [cmd_to_vm, hlook, is_vm_running_success env vm hlr hrun]
  cases hf : (env.hostnameResult addr).failed with
  | true =>
    simp [hne, hssh, hf, die_eq, isSshRunEff, M.emit, M.bind, M.pure, List.lookup]
  | false =>
    have hn : pyRstrip (env.hostnameResult addr).stdout ≠ vm := by
      rcases hbad with h | h
      · rw [hf] at h; exact absurd h (by simp)
      · exact h
    simp [hne, hssh, hf, hn, die_eq, isSshRunEff, M.emit, M.bind, M.pure, List.lookup]

/-- An environment identical to `demoEnv` except that the host reached at
the gateway VM's address reports the wrong hostname. -/
def mismatchEnv : Env :=
  { demoEnv with
    hostnameResult := fun addr =>
      if addr = "192.168.56.2" then ⟨false, "some-other-host\n", ""⟩
      else demoEnv.hostnameResult addr }

theorem C3_witness :
    (cmd_to_vm mismatchEnv VM_INFO "echo hi" "gateway-vm").out = .exited 0 ∧
    (cmd_to_vm mismatchEnv VM_INFO "echo hi" "gateway-vm").effs.filter isSshRunEff =
      [Eff.sshRun "192.168.56.2" "hostname"] :=
  C3_identity_check_guards mismatchEnv "echo hi" "gateway-vm" "192.168.56.2"
    (by decide) (by decide) rfl (by decide) (by decide) (Or.inr (by decide))

/-- **C4.** When the `VBoxManage list runningvms` subprocess itself exits
zero, `is_vm_running` returns normally if `vm_name` is among the parsed
running VM names, and terminates the process if it is not. -/
theorem C4_is_vm_running (env : Env) (vm : String)
    (hlr : env.listRunningExit = 0) :
    (vm ∈ running_vms_of env.listRunningOutput →
      (is_vm_running env vm).out = .ok ()) ∧
    (vm ∉ running_vms_of env.listRunningOutput →
      (is_vm_running env vm).out = .exited 0) := by
  constructor
  · intro h
    rw [is_vm_running_success env vm hlr h]
  · intro h
    rw [is_vm_running]
    simp [hlr, h, die_eq, M.emit, M.bind, M.pure]

theorem C4_witness :
    (is_vm_running demoEnv "gateway-vm").out = .ok () ∧
    (is_vm_running demoEnv "absent-vm").out = .exited 0 :=
  ⟨(C4_is_vm_running demoEnv "gateway-vm" rfl).1 (by decide),
   (C4_is_vm_running demoEnv "absent-vm" rfl).2 (by decide)⟩

/-- **C8 (counterexample).** The claim "every call to `log` appends exactly
one line" fails at the empty message: `log("")` returns early and appends
nothing. -/
theorem C8_counterexample :
    ¬ (((log demoEnv "").effs.filter isLogLineEff).length = 1) := by decide

/-- **C8 (amended).** For every NON-EMPTY message, each call to `log`
appends exactly one line to the log file, formatted as the current
HH-MM-SS time, a colon and space, then the message. -/
theorem C8_amended_log_format (env : Env) (msg : String) (h : msg ≠ "") :
    (log env msg).effs.filter isLogLineEff =
      [Eff.logLine (env.now ++ ": " ++ msg)] := by
  rw [log_eq_of_ne env msg h]
  simp [isLogLineEff]

theorem C8_witness :
    (log demoEnv "hello").effs.filter isLogLineEff =
      [Eff.logLine ("12-00-00" ++ ": " ++ "hello")] :=
  C8_amended_log_format demoEnv "hello" (by decide)

/-- `pyFindAux` finds the first occurrence of `c` right after a block that
does not contain it. -/
theorem pyFindAux_append_of_not_mem (c : Char) (xs ys : List Char)
    (h : ∀ x ∈ xs, x ≠ c) (i : Nat) :
    pyFindAux c (xs ++ c :: ys) i = some (i + xs.length) := by
  induction xs generalizing i with
  | nil => simp [pyFindAux]
  | cons a as ih =>
    have ha : a ≠ c := h a (by simp)
    simp only [List.cons_append, pyFindAux, if_neg ha, List.append_eq]
    rw [ih (fun x hx => h x (by simp [hx])) (i + 1)]
    congr 1
    simp only [List.length_cons]
    omega

/-- **C9.** For every line of the form a double-quoted (non-empty,
quote-free) VM name followed by arbitrary other text, the extraction
`this_line[1:this_line.find('"', 2)]` yields exactly the name between the
quotes. -/
theorem C9_quoted_name_extraction (name rest : String)
    (hne : name ≠ "") (hq : ∀ c ∈ name.data, c ≠ '"') :
    extractQuoted ("\"" ++ name ++ "\"" ++ rest) = name := by
  obtain ⟨n0, ntail, hnd⟩ : ∃ n0 ntail, name.data = n0 :: ntail := by
    cases hd : name.data with
    | nil => exact absurd (string_eq_empty_of_data hd) hne
    | cons a l => exact ⟨a, l, rfl⟩
  have hdata : ("\"" ++ name ++ "\"" ++ rest).data
      = '"' :: (name.data ++ '"' :: rest.data) := by
    have h1 : ("\"" : String).data = ['"'] := rfl
    simp [String.data_append, h1]
  have htail : ∀ x ∈ ntail, x ≠ '"' := by
    intro x hx
    exact hq x (by rw [hnd]; exact List.mem_cons_of_mem _ hx)
  have hfind : pyFind ('"' :: (name.data ++ '"' :: rest.data)) '"' 2
      = ((name.data.length + 1 : Nat) : Int) := by
    rw [pyFind, hnd]
    have hdrop : List.drop 2 ('"' :: ((n0 :: ntail) ++ '"' :: rest.data))
        = ntail ++ '"' :: rest.data := by
      simp
    rw [hdrop, pyFindAux_append_of_not_mem '"' ntail rest.data htail 2]
    simp only [List.length_cons]
    congr 1
    omega
  have hstop : pySliceStop ('"' :: (name.data ++ '"' :: rest.data))
      ((name.data.length + 1 : Nat) : Int) = name.data.length + 1 := by
    rw [pySliceStop, if_neg (by omega)]
    rw [Int.toNat_natCast]
    apply Nat.min_eq_left
    simp [List.length_cons, List.length_append]
  have hsplit : ('"' :: (name.data ++ '"' :: rest.data))
      = ('"' :: name.data) ++ ('"' :: rest.data) := by simp
  rw [extractQuoted, extractQuotedL, hdata, hfind, pySlice, hstop, hsplit,
    @List.take_left' Char ('"' :: name.data) ('"' :: rest.data)
      (name.data.length + 1) (by simp),
    List.drop_one, List.tail_cons]

theorem C9_witness :
    ("gateway-vm" ≠ "" ∧ ∀ c ∈ ("gateway-vm" : String).data, c ≠ '"') ∧
    extractQuoted ("\"" ++ "gateway-vm" ++ "\"" ++ " {1234}") = "gateway-vm" :=
  ⟨⟨by decide, by decide⟩,
   C9_quoted_name_extraction "gateway-vm" " {1234}" (by decide) (by decide)⟩

/-! ## Exit-status invariant -/

/-- The computation either returns a value or exits with status 0. -/
def GoodRun {α : Type} (x : M α) : Prop :=
  (∃ a, x.out = Outcome.ok a) ∨ x.out = Outcome.exited 0

/-- The computation either returns the value `v` or exits with status 0. -/
def GoodRunTo {α : Type} (x : M α) (v : α) : Prop :=
  x.out = Outcome.ok v ∨ x.out = Outcome.exited 0

theorem log_out (env : Env) (s : String) : (log env s).out = Outcome.ok () := by
  rw [log]; split <;> rfl

theorem show_help_out : show_help.out = Outcome.ok () := rfl

theorem goodRun_pure {α : Type} (a : α) : GoodRun (M.pure a) := Or.inl ⟨a, rfl⟩

theorem goodRun_emit (e : Eff) : GoodRun (M.emit e) := Or.inl ⟨(), rfl⟩

theorem goodRun_die {α : Type} (env : Env) (s : String) :
    GoodRun (die env s : M α) := Or.inr (by rw [die_eq])

theorem goodRun_log (env : Env) (s : String) : GoodRun (log env s) :=
  Or.inl ⟨(), log_out env s⟩

theorem goodRunTo_die {α : Type} (env : Env) (s : String) (v : α) :
    GoodRunTo (die env s : M α) v := Or.inr (by rw [die_eq])

theorem goodRunTo_pure {α : Type} (v : α) : GoodRunTo (M.pure v) v := Or.inl rfl

theorem goodRun_bind {α β : Type} {x : M α} {f : α → M β}
    (hx : GoodRun x) (hf : ∀ a, GoodRun (f a)) : GoodRun (M.bind x f) := by
  rcases hx with ⟨a, ha⟩ | hx
  · have hb : M.bind x f = ⟨x.effs ++ (f a).effs, (f a).out⟩ := by rw [M.bind, ha]
    rcases hf a with ⟨b, hb2⟩ | hb2
    · exact Or.inl ⟨b, by rw [hb]; exact hb2⟩
    · exact Or.inr (by rw [hb]; exact hb2)
  · exact Or.inr (by rw [M.bind, hx])

theorem goodRunTo_bind {α β : Type} {x : M α} {f : α → M β} {v : β}
    (hx : GoodRun x) (hf : ∀ a, GoodRunTo (f a) v) : GoodRunTo (M.bind x f) v := by
  rcases hx with ⟨a, ha⟩ | hx
  · have hb : M.bind x f = ⟨x.effs ++ (f a).effs, (f a).out⟩ := by rw [M.bind, ha]
    rcases hf a with hb2 | hb2
    · exact Or.inl (by rw [hb]; exact hb2)
    · exact Or.inr (by rw [hb]; exact hb2)
  · exact Or.inr (by rw [M.bind, hx])

theorem bind_exits_of_goodRunTo {α β : Type} {x : M α} {v : α} {f : α → M β}
    (hx : GoodRunTo x v) (hf : (f v).out = Outcome.exited 0) :
    (M.bind x f).out = Outcome.exited 0 := by
  rcases hx with hx | hx
  · rw [M.bind, hx]; exact hf
  · rw [M.bind, hx]

theorem bind_exits_forall {α β : Type} {x : M α} {f : α → M β}
    (hx : GoodRun x) (hf : ∀ a, (f a).out = Outcome.exited 0) :
    (M.bind x f).out = Outcome.exited 0 := by
  rcases hx with ⟨a, ha⟩ | hx
  · rw [M.bind, ha]; exact hf a
  · rw [M.bind, hx]

theorem goodRun_is_vm_running (env : Env) (vm : String) :
    GoodRun (is_vm_running env vm) := by
  rw [is_vm_running]
  simp only [M_bind_def]
  apply goodRun_bind (goodRun_emit _)
  intro _
  split
  · exact goodRun_die env _
  · split
    · exact goodRun_pure _
    · exact goodRun_die env _

theorem goodRun_cmd_to_vm (env : Env) (c vm : String) :
    GoodRun (cmd_to_vm env VM_INFO c vm) := by
  rw [cmd_to_vm]
  cases hl : List.lookup vm VM_INFO with
  | none =>
    simp only [hl, Option.isNone_none, if_true]
    exact goodRun_die env _
  | some entry =>
    simp only [hl, Option.isNone_some, Bool.false_eq_true, if_false, M_bind_def]
    apply goodRun_bind (goodRun_is_vm_running env vm)
    intro _
    cases he : List.lookup "control_addr" entry with
    | none => exact goodRun_die env _
    | some addr =>
      split
      · exact goodRun_die env _
      · split
        · exact goodRun_die env _
        · apply goodRun_bind (goodRun_emit _)
          intro _
          split
          · exact goodRun_die env _
          · apply goodRun_bind (goodRun_emit _)
            intro _
            split
            · exact goodRun_die env _
            · split
              · exact goodRun_die env _
              · apply goodRun_bind (goodRun_emit _)
                intro _
                split
                · exact goodRun_pure _
                · exact goodRun_pure _

theorem goodRun_check_vm_inventory (env : Env)
    (l : List (String × List (String × String))) :
    GoodRun (check_vm_inventory env l) := by
  induction l with
  | nil => exact goodRun_pure _
  | cons kv rest ih =>
    obtain ⟨name, entry⟩ := kv
    rw [check_vm_inventory]
    simp only [M_bind_def]
    apply goodRun_bind (goodRun_emit _)
    intro _
    split
    · exact goodRun_die env _
    · exact ih

theorem startup_goodRunTo (env : Env) (argv0 : String) :
    GoodRunTo (startup_and_config_general env argv0) VM_INFO := by
  rw [startup_and_config_general]
  split
  · exact goodRunTo_die env _ _
  · simp only [M_bind_def]
    apply goodRunTo_bind (goodRun_emit _)
    intro _
    split
    · exact goodRunTo_die env _ _
    · apply goodRunTo_bind (goodRun_check_vm_inventory env VM_INFO)
      intro _
      have hc : VM_INFO.foldl (fun acc kv => acc ++ [kv]) [] = VM_INFO := by rfl
      rw [hc]
      exact Or.inl rfl

theorem goodRun_sanity_loop (env : Env) (names : List String) :
    GoodRun (sanity_check_loop env VM_INFO names) := by
  induction names with
  | nil => exact goodRun_pure _
  | cons vm rest ih =>
    rw [sanity_check_loop]
    simp only [M_bind_def]
    apply goodRun_bind (goodRun_log env _)
    intro _
    apply goodRun_bind (goodRun_is_vm_running env vm)
    intro _
    apply goodRun_bind (goodRun_cmd_to_vm env _ vm)
    intro r1
    split
    · apply goodRun_bind (goodRun_cmd_to_vm env _ vm)
      intro _
      apply goodRun_bind (goodRun_log env _)
      intro _
      apply goodRun_bind (goodRun_cmd_to_vm env _ vm)
      intro r2
      split
      · apply goodRun_bind (goodRun_cmd_to_vm env _ vm)
        intro _
        apply goodRun_bind (goodRun_log env _)
        intro _
        exact ih
      · exact goodRun_bind (goodRun_pure _) (fun _ => ih)
    · apply goodRun_bind (goodRun_pure _)
      intro _
      apply goodRun_bind (goodRun_cmd_to_vm env _ vm)
      intro r2
      split
      · apply goodRun_bind (goodRun_cmd_to_vm env _ vm)
        intro _
        apply goodRun_bind (goodRun_log env _)
        intro _
        exact ih
      · exact goodRun_bind (goodRun_pure _) (fun _ => ih)

theorem goodRun_sanity_vms (env : Env) :
    GoodRun (sanity_check_vms env VM_INFO) := by
  rw [sanity_check_vms]
  simp only [M_bind_def]
  exact goodRun_bind (goodRun_sanity_loop env _) (fun _ => goodRun_pure _)

/-- **C6.** Every termination path of the program — every fatal path
through `die` as well as normal completion — exits the process with
status 0. -/
theorem C6_always_exits_zero (env : Env) (argv : List String) :
    (mainProg env argv).out = Outcome.exited 0 := by
  rw [mainProg]
  simp only [M_bind_def]
  apply bind_exits_of_goodRunTo (Or.inl (log_out env _))
  split
  · apply bind_exits_of_goodRunTo (Or.inl show_help_out)
    simp [die_eq]
  · apply bind_exits_of_goodRunTo (startup_goodRunTo env _)
    apply bind_exits_of_goodRunTo (Or.inl (log_out env _))
    split
    · apply bind_exits_of_goodRunTo (Or.inl show_help_out)
      simp [die_eq]
    · split
      · apply bind_exits_of_goodRunTo (Or.inl show_help_out)
        apply bind_exits_of_goodRunTo (Or.inl (log_out env _))
        rfl
      · split
        · apply bind_exits_forall (goodRun_sanity_vms env)
          intro ok
          split
          · apply bind_exits_of_goodRunTo (Or.inl (log_out env _))
            apply bind_exits_of_goodRunTo (Or.inl (log_out env _))
            rfl
          · apply bind_exits_of_goodRunTo (goodRunTo_pure ())
            apply bind_exits_of_goodRunTo (Or.inl (log_out env _))
            rfl
        · apply bind_exits_of_goodRunTo (goodRunTo_pure ())
          apply bind_exits_of_goodRunTo (Or.inl (log_out env _))
          rfl

/-! ## Dispatcher traces -/

/-- The full trace of a run with fewer than two command-line arguments:
start-of-run log, help text, and the `die` log — nothing else. -/
theorem mainProg_noargs_eq (env : Env) (argv : List String)
    (h : argv.length < 2) :
    mainProg env argv =
      ⟨[.logLine (env.now ++ ": " ++ ("## Starting run on date " ++ env.today)),
        .print (env.now ++ ": " ++ ("## Starting run on date " ++ env.today)),
        .print HELP_TEXT,
        .logLine (env.now ++ ": " ++ ("There were no arguments on the command line." ++ " Exiting.")),
        .print (env.now ++ ": " ++ ("There were no arguments on the command line." ++ " Exiting."))],
       .exited 0⟩ := by
  rw [mainProg,
    log_eq_of_ne env _ (append_left_ne_empty _ _ (by decide))]
  simp only [M_bind_def, M_bind_mk_ok]
  rw [if_pos h, show_help, die_eq]
  simp [M.emit, M.bind]

/-- The trace of the three startup checks when they all pass. -/
theorem check_vm_inventory_success (env : Env)
    (h1 : env.showVmInfoExit "gateway-vm" = 0)
    (h2 : env.showVmInfoExit "servers-vm" = 0)
    (h3 : env.showVmInfoExit "resolvers-vm" = 0) :
    check_vm_inventory env VM_INFO =
      ⟨[.subproc "VBoxManage showvminfo gateway-vm >/dev/null 2>/dev/null",
        .subproc "VBoxManage showvminfo servers-vm >/dev/null 2>/dev/null",
        .subproc "VBoxManage showvminfo resolvers-vm >/dev/null 2>/dev/null"],
       .ok ()⟩ := by
  rw [VM_INFO]
  simp [check_vm_inventory, h1, h2, h3, M.emit, M.bind, M.pure]

/-- The `startup_and_config_general` trace when invoked as `./rt.py` and
every hypervisor check passes: four subprocesses, returning the
configuration (equal to `VM_INFO`). -/
theorem startup_success_eq (env : Env)
    (hv : env.versionExit = 0)
    (h1 : env.showVmInfoExit "gateway-vm" = 0)
    (h2 : env.showVmInfoExit "servers-vm" = 0)
    (h3 : env.showVmInfoExit "resolvers-vm" = 0) :
    startup_and_config_general env "./rt.py" =
      ⟨[.subproc "VBoxManage --version >/dev/null 2>/dev/null",
        .subproc "VBoxManage showvminfo gateway-vm >/dev/null 2>/dev/null",
        .subproc "VBoxManage showvminfo servers-vm >/dev/null 2>/dev/null",
        .subproc "VBoxManage showvminfo resolvers-vm >/dev/null 2>/dev/null"],
       .ok VM_INFO⟩ := by
  rw [startup_and_config_general, if_neg (by simp)]
  simp only [M_bind_def, M_bind_emit]
  rw [if_neg (by omega), check_vm_inventory_success env h1 h2 h3]
  simp [M.bind, M.pure]
  rfl

/-- The full trace of a run `./rt.py <cmd> <rest...>` with `cmd` outside
the command set, when startup passes: start log, startup subprocesses,
command log, help text, `die` log. -/
theorem mainProg_badcmd_eq (env : Env) (cmd : String) (rest : List String)
    (hv : env.versionExit = 0)
    (h1 : env.showVmInfoExit "gateway-vm" = 0)
    (h2 : env.showVmInfoExit "servers-vm" = 0)
    (h3 : env.showVmInfoExit "resolvers-vm" = 0)
    (hbad : cmd ∉ CLI_COMMANDS) :
    mainProg env ("./rt.py" :: cmd :: rest) =
      ⟨[.logLine (env.now ++ ": " ++ ("## Starting run on date " ++ env.today)),
        .print (env.now ++ ": " ++ ("## Starting run on date " ++ env.today)),
        .subproc "VBoxManage --version >/dev/null 2>/dev/null",
        .subproc "VBoxManage showvminfo gateway-vm >/dev/null 2>/dev/null",
        .subproc "VBoxManage showvminfo servers-vm >/dev/null 2>/dev/null",
        .subproc "VBoxManage showvminfo resolvers-vm >/dev/null 2>/dev/null",
        .logLine (env.now ++ ": " ++ ("Command was " ++ cmd ++ " " ++ String.intercalate " " rest)),
        .print (env.now ++ ": " ++ ("Command was " ++ cmd ++ " " ++ String.intercalate " " rest)),
        .print HELP_TEXT,
        .logLine (env.now ++ ": " ++ ((cmd ++ " is not valid command.") ++ " Exiting.")),
        .print (env.now ++ ": " ++ ((cmd ++ " is not valid command.") ++ " Exiting."))],
       .exited 0⟩ := by
  rw [mainProg,
    log_eq_of_ne env _ (append_left_ne_empty _ _ (by decide))]
  simp only [M_bind_def, M_bind_mk_ok]
  rw [if_neg (by simp)]
  simp only [List.getD, List.get?, Option.getD, List.drop]
  rw [startup_success_eq env hv h1 h2 h3]
  simp only [M_bind_mk_ok]
  rw [log_eq_of_ne env _
    (append_left_ne_empty _ _ (append_right_ne_empty _ " " (by decide)))]
  simp only [M_bind_mk_ok]
  rw [if_pos hbad, show_help, die_eq]
  simp [M.emit, M.bind]

/-- The full trace of a run `./rt.py help <rest...>` when startup passes:
start log, startup subprocesses, command log, help text, end-of-run log,
normal `exit()`. -/
theorem mainProg_help_eq (env : Env) (rest : List String)
    (hv : env.versionExit = 0)
    (h1 : env.showVmInfoExit "gateway-vm" = 0)
    (h2 : env.showVmInfoExit "servers-vm" = 0)
    (h3 : env.showVmInfoExit "resolvers-vm" = 0) :
    mainProg env ("./rt.py" :: "help" :: rest) =
      ⟨[.logLine (env.now ++ ": " ++ ("## Starting run on date " ++ env.today)),
        .print (env.now ++ ": " ++ ("## Starting run on date " ++ env.today)),
        .subproc "VBoxManage --version >/dev/null 2>/dev/null",
        .subproc "VBoxManage showvminfo gateway-vm >/dev/null 2>/dev/null",
        .subproc "VBoxManage showvminfo servers-vm >/dev/null 2>/dev/null",
        .subproc "VBoxManage showvminfo resolvers-vm >/dev/null 2>/dev/null",
        .logLine (env.now ++ ": " ++ ("Command was " ++ "help" ++ " " ++ String.intercalate " " rest)),
        .print (env.now ++ ": " ++ ("Command was " ++ "help" ++ " " ++ String.intercalate " " rest)),
        .print HELP_TEXT,
        .logLine (env.now ++ ": " ++ "## Finished run"),
        .print (env.now ++ ": " ++ "## Finished run")],
       .exited 0⟩ := by
  rw [mainProg,
    log_eq_of_ne env _ (append_left_ne_empty _ _ (by decide))]
  simp only [M_bind_def, M_bind_mk_ok]
  rw [if_neg (by simp)]
  simp only [List.getD, List.get?, Option.getD, List.drop]
  rw [startup_success_eq env hv h1 h2 h3]
  simp only [M_bind_mk_ok]
  rw [log_eq_of_ne env _
    (append_left_ne_empty _ _ (append_right_ne_empty _ " " (by decide)))]
  simp only [M_bind_mk_ok]
  rw [if_neg (by simp [CLI_COMMANDS])]
  simp only [if_true]
  rw [show_help, log_eq_of_ne env _ (by decide)]
  simp [M.emit, M.bind, pythonExitStatus]

/-- **C7.** The CLI dispatcher: with no arguments it prints the help text
and terminates with the logged "no arguments" message; with a first
argument outside `{help, check_vms}` (startup passing) it prints the help
text and terminates with the logged "not a valid command" message; with
`help` it prints the help text, reaches the normal end-of-run log, and
never performs any VM check. -/
theorem C7_dispatcher (env : Env)
    (hv : env.versionExit = 0)
    (h1 : env.showVmInfoExit "gateway-vm" = 0)
    (h2 : env.showVmInfoExit "servers-vm" = 0)
    (h3 : env.showVmInfoExit "resolvers-vm" = 0) :
    (∀ argv : List String, argv.length < 2 →
      (mainProg env argv).out = .exited 0 ∧
      Eff.print HELP_TEXT ∈ (mainProg env argv).effs ∧
      Eff.logLine (env.now ++ ": " ++
          ("There were no arguments on the command line." ++ " Exiting."))
        ∈ (mainProg env argv).effs) ∧
    (∀ (cmd : String) (rest : List String), cmd ∉ CLI_COMMANDS →
      (mainProg env ("./rt.py" :: cmd :: rest)).out = .exited 0 ∧
      Eff.print HELP_TEXT ∈ (mainProg env ("./rt.py" :: cmd :: rest)).effs ∧
      Eff.logLine (env.now ++ ": " ++ ((cmd ++ " is not valid command.") ++ " Exiting."))
        ∈ (mainProg env ("./rt.py" :: cmd :: rest)).effs) ∧
    (∀ rest : List String,
      (mainProg env ("./rt.py" :: "help" :: rest)).out = .exited 0 ∧
      Eff.print HELP_TEXT ∈ (mainProg env ("./rt.py" :: "help" :: rest)).effs ∧
      Eff.logLine (env.now ++ ": " ++ "## Finished run")
        ∈ (mainProg env ("./rt.py" :: "help" :: rest)).effs ∧
      ∀ e ∈ (mainProg env ("./rt.py" :: "help" :: rest)).effs,
        isVmCheckEff e = false) := by
  refine ⟨?_, ?_, ?_⟩
  · intro argv h
    rw [mainProg_noargs_eq env argv h]
    refine ⟨rfl, by simp, by simp⟩
  · intro cmd rest hbad
    rw [mainProg_badcmd_eq env cmd rest hv h1 h2 h3 hbad]
    refine ⟨rfl, by simp, by simp⟩
  · intro rest
    rw [mainProg_help_eq env rest hv h1 h2 h3]
    refine ⟨rfl, by simp, by simp, ?_⟩
    intro e he
    simp only [List.mem_cons, List.not_mem_nil, or_false] at he
    rcases he with rfl | rfl | rfl | rfl | rfl | rfl | rfl | rfl | rfl | rfl | rfl <;> rfl

theorem C7_witness :
    (∀ argv : List String, argv.length < 2 →
      (mainProg demoEnv argv).out = .exited 0 ∧
      Eff.print HELP_TEXT ∈ (mainProg demoEnv argv).effs ∧
      Eff.logLine (demoEnv.now ++ ": " ++
          ("There were no arguments on the command line." ++ " Exiting."))
        ∈ (mainProg demoEnv argv).effs) ∧
    (∀ (cmd : String) (rest : List String), cmd ∉ CLI_COMMANDS →
      (mainProg demoEnv ("./rt.py" :: cmd :: rest)).out = .exited 0 ∧
      Eff.print HELP_TEXT ∈ (mainProg demoEnv ("./rt.py" :: cmd :: rest)).effs ∧
      Eff.logLine (demoEnv.now ++ ": " ++ ((cmd ++ " is not valid command.") ++ " Exiting."))
        ∈ (mainProg demoEnv ("./rt.py" :: cmd :: rest)).effs) ∧
    (∀ rest : List String,
      (mainProg demoEnv ("./rt.py" :: "help" :: rest)).out = .exited 0 ∧
      Eff.print HELP_TEXT ∈ (mainProg demoEnv ("./rt.py" :: "help" :: rest)).effs ∧
      Eff.logLine (demoEnv.now ++ ": " ++ "## Finished run")
        ∈ (mainProg demoEnv ("./rt.py" :: "help" :: rest)).effs ∧
      ∀ e ∈ (mainProg demoEnv ("./rt.py" :: "help" :: rest)).effs,
        isVmCheckEff e = false) :=
  C7_dispatcher demoEnv rfl rfl rfl rfl

/-- **C10.** Invoked with fewer than two command-line arguments, the
program terminates before the startup validator runs: the whole trace
contains no subprocess and no SSH activity at all. -/
theorem C10_short_argv_skips_startup (env : Env) (argv : List String)
    (h : argv.length < 2) :
    (mainProg env argv).out = .exited 0 ∧
    ∀ e ∈ (mainProg env argv).effs, isNetworkEff e = false := by
  rw [mainProg_noargs_eq env argv h]
  refine ⟨rfl, ?_⟩
  intro e he
  simp only [List.mem_cons, List.not_mem_nil, or_false] at he
  rcases he with rfl | rfl | rfl | rfl | rfl <;> rfl

theorem C10_witness :
    (mainProg demoEnv ["./rt.py"]).out = .exited 0 ∧
    ∀ e ∈ (mainProg demoEnv ["./rt.py"]).effs, isNetworkEff e = false :=
  C10_short_argv_skips_startup demoEnv ["./rt.py"] (by decide)

/-! ## Sanity-check traces -/

/-- The trace of one iteration of the `sanity_check_vms` loop on a
`goodVm`: the start log, the explicit running check, the `ls ~/Target`
round (plus the `mkdir ~/Target` round and its log when the listing
reported a missing path), then the same for `~/Source`. -/
def bodyEffs (env : Env) (vm addr : String) : List Eff :=
  [.logLine (env.now ++ ": " ++ ("Starting sanity check on " ++ vm)),
   .print (env.now ++ ": " ++ ("Starting sanity check on " ++ vm)),
   .subproc "VBoxManage list runningvms",
   .subproc "VBoxManage list runningvms", .sshOpen addr,
   .sshRun addr "hostname", .sshRun addr "ls ~/Target"]
  ++ (if pyIn "No such file or directory" (cmdRet env addr "ls ~/Target") = true then
        [.subproc "VBoxManage list runningvms", .sshOpen addr,
         .sshRun addr "hostname", .sshRun addr "mkdir ~/Target",
         .logLine (env.now ++ ": " ++ ("Created ~/Target on " ++ vm)),
         .print (env.now ++ ": " ++ ("Created ~/Target on " ++ vm))]
      else [])
  ++ [.subproc "VBoxManage list runningvms", .sshOpen addr,
      .sshRun addr "hostname", .sshRun addr "ls ~/Source"]
  ++ (if pyIn "No such file or directory" (cmdRet env addr "ls ~/Source") = true then
        [.subproc "VBoxManage list runningvms", .sshOpen addr,
         .sshRun addr "hostname", .sshRun addr "mkdir ~/Source",
         .logLine (env.now ++ ": " ++ ("Created ~/Source on " ++ vm)),
         .print (env.now ++ ": " ++ ("Created ~/Source on " ++ vm))]
      else [])

theorem sanity_loop_cons_eq (env : Env) (vm addr : String) (rest : List String)
    (hg : goodVm env vm addr) (hlr : env.listRunningExit = 0) :
    sanity_check_loop env VM_INFO (vm :: rest) =
      ⟨bodyEffs env vm addr ++ (sanity_check_loop env VM_INFO rest).effs,
       (sanity_check_loop env VM_INFO rest).out⟩ := by
  have hcmd : ∀ c, cmd_to_vm env VM_INFO c vm =
      ⟨[.subproc "VBoxManage list runningvms", .sshOpen addr,
        .sshRun addr "hostname", .sshRun addr c], .ok (cmdRet env addr c)⟩ :=
    fun c => cmd_to_vm_success env c vm addr hg hlr
  have hlog1 := log_eq_of_ne env ("Starting sanity check on " ++ vm)
      (append_left_ne_empty _ _ (by decide))
  have hlog2 := log_eq_of_ne env ("Created ~/Target on " ++ vm)
      (append_left_ne_empty _ _ (by decide))
  have hlog3 := log_eq_of_ne env ("Created ~/Source on " ++ vm)
      (append_left_ne_empty _ _ (by decide))
  rw [sanity_check_loop]
  simp only [M_bind_def, hcmd, hlog1, hlog2, hlog3,
    is_vm_running_success env vm hlr hg.2.2.1, M_bind_mk_ok, M_bind_pure_left]
  by_cases hT : pyIn "No such file or directory" (cmdRet env addr "ls ~/Target") = true <;>
  by_cases hS : pyIn "No such file or directory" (cmdRet env addr "ls ~/Source") = true <;>
  simp [bodyEffs, hT, hS]

theorem sanity_vms_eq (env : Env)
    (hlr : env.listRunningExit = 0)
    (hgw : goodVm env "gateway-vm" "192.168.56.2")
    (hsv : goodVm env "servers-vm" "192.168.56.3")
    (hrv : goodVm env "resolvers-vm" "192.168.56.4") :
    sanity_check_vms env VM_INFO =
      ⟨bodyEffs env "gateway-vm" "192.168.56.2" ++
       (bodyEffs env "servers-vm" "192.168.56.3" ++
        bodyEffs env "resolvers-vm" "192.168.56.4"), .ok true⟩ := by
  rw [sanity_check_vms]
  have hmap : VM_INFO.map Prod.fst = ["gateway-vm", "servers-vm", "resolvers-vm"] := rfl
  rw [hmap]
  simp only [M_bind_def]
  rw [sanity_loop_cons_eq env _ _ _ hgw hlr,
      sanity_loop_cons_eq env _ _ _ hsv hlr,
      sanity_loop_cons_eq env _ _ _ hrv hlr]
  simp [M.bind, M.pure, sanity_check_loop, List.append_assoc]

theorem bodyEffs_count_mkdir_target (env : Env) (vm addr a2 : String) :
    (bodyEffs env vm addr).count (Eff.sshRun a2 "mkdir ~/Target") =
      if a2 = addr ∧
          pyIn "No such file or directory" (cmdRet env addr "ls ~/Target") = true
        then 1 else 0 := by
  by_cases h : pyIn "No such file or directory" (cmdRet env addr "ls ~/Target") = true <;>
  by_cases h2 : pyIn "No such file or directory" (cmdRet env addr "ls ~/Source") = true <;>
  by_cases ha : a2 = addr <;>
  simp [bodyEffs, h, h2, ha, List.count_append, List.count_cons]

theorem bodyEffs_count_mkdir_source (env : Env) (vm addr a2 : String) :
    (bodyEffs env vm addr).count (Eff.sshRun a2 "mkdir ~/Source") =
      if a2 = addr ∧
          pyIn "No such file or directory" (cmdRet env addr "ls ~/Source") = true
        then 1 else 0 := by
  by_cases h : pyIn "No such file or directory" (cmdRet env addr "ls ~/Source") = true <;>
  by_cases h2 : pyIn "No such file or directory" (cmdRet env addr "ls ~/Target") = true <;>
  by_cases ha : a2 = addr <;>
  simp [bodyEffs, h, h2, ha, List.count_append, List.count_cons]

/-- **C5.** When all three configured VMs pass their checks: for each
configured VM, `sanity_check_vms` issues exactly one `mkdir` for a
directory whose listing output contained "No such file or directory" (and
logs a creation message), zero `mkdir`s for a directory whose listing
output did not, and it returns `true`. -/
theorem C5_sanity_check_vms (env : Env)
    (hlr : env.listRunningExit = 0)
    (hgw : goodVm env "gateway-vm" "192.168.56.2")
    (hsv : goodVm env "servers-vm" "192.168.56.3")
    (hrv : goodVm env "resolvers-vm" "192.168.56.4") :
    (sanity_check_vms env VM_INFO).out = .ok true ∧
    ∀ vm addr, (vm, addr) ∈ [("gateway-vm", "192.168.56.2"),
        ("servers-vm", "192.168.56.3"), ("resolvers-vm", "192.168.56.4")] →
      ((sanity_check_vms env VM_INFO).effs.count (Eff.sshRun addr "mkdir ~/Target") =
        if pyIn "No such file or directory" (cmdRet env addr "ls ~/Target") = true
          then 1 else 0) ∧
      ((sanity_check_vms env VM_INFO).effs.count (Eff.sshRun addr "mkdir ~/Source") =
        if pyIn "No such file or directory" (cmdRet env addr "ls ~/Source") = true
          then 1 else 0) ∧
      (pyIn "No such file or directory" (cmdRet env addr "ls ~/Target") = true →
        Eff.logLine (env.now ++ ": " ++ ("Created ~/Target on " ++ vm))
          ∈ (sanity_check_vms env VM_INFO).effs) ∧
      (pyIn "No such file or directory" (cmdRet env addr "ls ~/Source") = true →
        Eff.logLine (env.now ++ ": " ++ ("Created ~/Source on " ++ vm))
          ∈ (sanity_check_vms env VM_INFO).effs) := by
  rw [sanity_vms_eq env hlr hgw hsv hrv]
  refine ⟨rfl, ?_⟩
  intro vm addr hmem
  simp only [List.mem_cons, List.not_mem_nil, or_false, Prod.mk.injEq] at hmem
  rcases hmem with ⟨rfl, rfl⟩ | ⟨rfl, rfl⟩ | ⟨rfl, rfl⟩ <;>
    refine ⟨?_, ?_, fun hcond => ?_, fun hcond => ?_⟩ <;>
    first
      | (simp only [List.count_append, bodyEffs_count_mkdir_target,
          bodyEffs_count_mkdir_source]
         simp
         done)
      | simp [bodyEffs, hcond]

theorem C5_witness :
    (sanity_check_vms demoEnv VM_INFO).out = .ok true ∧
    ∀ vm addr, (vm, addr) ∈ [("gateway-vm", "192.168.56.2"),
        ("servers-vm", "192.168.56.3"), ("resolvers-vm", "192.168.56.4")] →
      ((sanity_check_vms demoEnv VM_INFO).effs.count (Eff.sshRun addr "mkdir ~/Target") =
        if pyIn "No such file or directory" (cmdRet demoEnv addr "ls ~/Target") = true
          then 1 else 0) ∧
      ((sanity_check_vms demoEnv VM_INFO).effs.count (Eff.sshRun addr "mkdir ~/Source") =
        if pyIn "No such file or directory" (cmdRet demoEnv addr "ls ~/Source") = true
          then 1 else 0) ∧
      (pyIn "No such file or directory" (cmdRet demoEnv addr "ls ~/Target") = true →
        Eff.logLine (demoEnv.now ++ ": " ++ ("Created ~/Target on " ++ vm))
          ∈ (sanity_check_vms demoEnv VM_INFO).effs) ∧
      (pyIn "No such file or directory" (cmdRet demoEnv addr "ls ~/Source") = true →
        Eff.logLine (demoEnv.now ++ ": " ++ ("Created ~/Source on " ++ vm))
          ∈ (sanity_check_vms demoEnv VM_INFO).effs) :=
  C5_sanity_check_vms demoEnv rfl
    ⟨by decide, by decide, by decide, by decide, by decide, by decide⟩
    ⟨by decide, by decide, by decide, by decide, by decide, by decide⟩
    ⟨by decide, by decide, by decide, by decide, by decide, by decide⟩

end RT
